import Mathlib

/-!
Verification of the einkaufs-app service (src/main.py) against its
natural-language specification.

The Python module is shallowly embedded: the remote Notion store is
modelled as an oracle (`Store`) answering raw HTTP query/create calls,
configuration is an explicit record of the four environment values, and
every embedded operation additionally returns the list of network calls
it issued, so that "without issuing a network call" becomes a statement
about that list.  Python string truthiness (`if not s`) is modelled by
`strOptTruthy`; floats are modelled as rationals.
-/

namespace Einkauf

/-- A JSON value as it may appear under the "number" key of the "Betrag"
property of a returned record: a number, a string, or null.  A missing
key is modelled by `Option` at the use site. -/
inductive JVal where
  | num (q : ℚ)
  | str (s : String)
  | null
deriving DecidableEq, Repr

/-- A record (page) as returned by the remote store's query endpoint.
`id` is the opaque page identifier; `nameTitle` is the list of
plain-text fragments of the "Name" title property (empty when the
property or its "title" key is missing); `betrag` is the JSON value of
properties."Betrag"."number" (`none` when the property or the key is
missing). -/
structure Page where
  id : String
  nameTitle : List String
  betrag : Option JVal
deriving DecidableEq, Repr

/-- The distinct JSON payloads `src/main.py` sends to the query
endpoint: the empty payload (option listing), the exact title match with
page_size 1 (name resolution), and the compound AND of the two
relation-containment filters (the monthly sum). -/
inductive QueryPayload where
  | empty
  | titleEquals (name : String)
  | monthAndCat (monthId catId : String)
deriving DecidableEq, Repr

/-- A property value in the create payload of `add_transaction`:
title, number, date, rich_text, or relation, mirroring the JSON shapes
built at src/main.py lines 146-156. -/
inductive PropValue where
  | title (content : String)
  | number (q : ℚ)
  | dateStart (s : String)
  | richText (items : List String)
  | relation (ids : List String)
deriving DecidableEq, Repr

/-- The payload of a create (POST /pages) call: the parent database id
(taken verbatim from the environment, possibly unset) and the
properties dictionary, modelled as an association list in insertion
order. -/
structure CreatePayload where
  parentDatabaseId : Option String
  properties : List (String × PropValue)
deriving DecidableEq, Repr

/-- One outbound network call. -/
inductive Call where
  | queryCall (dbId : String) (payload : QueryPayload)
  | createCall (payload : CreatePayload)
deriving DecidableEq, Repr

/-- Outcome of a raw HTTP request: a decoded body, or a transport
failure / non-success status (what `requests.RequestException`,
including `raise_for_status`, covers). -/
inductive HttpResult (α : Type) where
  | ok (v : α)
  | err
deriving DecidableEq, Repr

/-- The remote store, as an oracle answering raw HTTP calls.
`rawQuery db payload` is the "results" list of a successful
`POST /databases/{db}/query`, or `err`; `rawCreate payload` is the
outcome of `POST /pages`. -/
structure Store where
  rawQuery : String → QueryPayload → HttpResult (List Page)
  rawCreate : CreatePayload → HttpResult Unit

/-- The four environment values read at module load
(src/main.py lines 17-20).  `none` models an unset variable. -/
structure Config where
  NOTION_API_KEY : Option String
  DB_TRANSAKT_ID : Option String
  DB_KATEG_ID : Option String
  DB_MONAT_ID : Option String
deriving DecidableEq, Repr

/-- Python truthiness of an `Optional[str]`: `None` and `""` are falsy. -/
def strOptTruthy : Option String → Bool
  | none => false
  | some s => s ≠ ""

/-- `query_database` (src/main.py lines 54-62): on success return the
decoded result list, on any request exception return the empty result
set. -/
def query_database (st : Store) (database_id : String) (payload : QueryPayload) :
    List Page :=
  match st.rawQuery database_id payload with
  | .ok results => results
  | .err => []

/-- `get_names_from_db` (src/main.py lines 64-74): empty list without a
call when the database id is falsy; otherwise query with the empty
payload and collect the first plain-text fragment of each page whose
title list is non-empty.  Returns the names together with the calls
issued. -/
def get_names_from_db (st : Store) (database_id : Option String) :
    List String × List Call :=
  if strOptTruthy database_id then
    let db := database_id.getD ""
    let results := query_database st db .empty
    (results.filterMap (fun p => p.nameTitle.head?), [.queryCall db .empty])
  else ([], [])

/-- `find_page_id_by_name` (src/main.py lines 76-90): `None` without a
call when the name or the database id is falsy; otherwise an exact
title-equality query, returning `None` on an empty result list and the
id of the first returned page otherwise.  Returns the resolved id
together with the calls issued. -/
def find_page_id_by_name (st : Store) (database_id : Option String) (name : String) :
    Option String × List Call :=
  if name = "" ∨ strOptTruthy database_id = false then (none, [])
  else
    let db := database_id.getD ""
    let results := query_database st db (.titleEquals name)
    match results with
    | [] => (none, [.queryCall db (.titleEquals name)])
    | p :: _ => (some p.id, [.queryCall db (.titleEquals name)])

/-- The contribution of one returned record to the monthly total
(src/main.py lines 112-114): the value of properties."Betrag"."number"
when it is numeric, `0` when the key is missing or non-numeric. -/
def betragNum (p : Page) : ℚ :=
  match p.betrag with
  | some (.num q) => q
  | _ => 0

/-- `get_lebensmittel_sum_for_month` (src/main.py lines 92-115): `0`
without a call when the month name or any of the three database ids is
falsy; resolve the month name and the literal "Lebensmittel" category,
returning `0` if either resolution is falsy; otherwise issue the
compound relation query and sum the numeric amounts.  Returns the total
together with the calls issued. -/
def get_lebensmittel_sum_for_month (cfg : Config) (st : Store) (monat_name : String) :
    ℚ × List Call :=
  if monat_name = "" ∨ strOptTruthy cfg.DB_MONAT_ID = false ∨
      strOptTruthy cfg.DB_TRANSAKT_ID = false ∨ strOptTruthy cfg.DB_KATEG_ID = false then
    (0, [])
  else
    let mres := find_page_id_by_name st cfg.DB_MONAT_ID monat_name
    let cres := find_page_id_by_name st cfg.DB_KATEG_ID "Lebensmittel"
    if strOptTruthy mres.1 = false ∨ strOptTruthy cres.1 = false then
      (0, mres.2 ++ cres.2)
    else
      let payload := QueryPayload.monthAndCat (mres.1.getD "") (cres.1.getD "")
      let db := cfg.DB_TRANSAKT_ID.getD ""
      let results := query_database st db payload
      (results.foldl (fun acc p => acc + betragNum p) 0,
        mres.2 ++ cres.2 ++ [.queryCall db payload])

/-- Round-half-to-even of a rational to an integer (the rounding mode of
Python's built-in `round`). -/
def roundHalfEven (q : ℚ) : ℤ :=
  let f := ⌊q⌋
  let frac := q - f
  if frac < 1/2 then f
  else if 1/2 < frac then f + 1
  else if f % 2 = 0 then f else f + 1

/-- `round(x, 2)`: round to 2 decimal places, half to even. -/
def pyRound2 (q : ℚ) : ℚ := (roundHalfEven (q * 100) : ℚ) / 100

/-- The `/lebensmittel_sum` route handler (src/main.py lines 136-139):
echo the month and return the total rounded to 2 decimal places.
Returns the response together with the calls issued. -/
def lebensmittel_sum (cfg : Config) (st : Store) (monat : String) :
    (String × ℚ) × List Call :=
  let r := get_lebensmittel_sum_for_month cfg st monat
  ((monat, pyRound2 r.1), r.2)

/-- The `Transaction` request model (src/main.py lines 38-44); `betrag`
is a float, modelled as a rational. -/
structure Transaction where
  name : String
  betrag : ℚ
  datum : String
  kategorie : String
  monat : String
  notiz : Option String
deriving DecidableEq, Repr

/-- The properties dictionary built by `add_transaction`
(src/main.py lines 146-156), in insertion order: the five scalar
properties, then the "Kategorien" relation when the resolved category
id is truthy, then the "Monat" relation when the resolved month id is
truthy.  "Notiz" is always present: an empty rich_text list when
`tx.notiz` is falsy. -/
def buildProperties (tx : Transaction) (cat_id month_id : Option String) :
    List (String × PropValue) :=
  [("Name", .title tx.name),
   ("Betrag", .number tx.betrag),
   ("Datum", .dateStart tx.datum),
   ("Kategorie_Text", .richText [tx.kategorie]),
   ("Notiz", .richText (if strOptTruthy tx.notiz then [tx.notiz.getD ""] else []))]
  ++ (if strOptTruthy cat_id then [("Kategorien", PropValue.relation [cat_id.getD ""])] else [])
  ++ (if strOptTruthy month_id then [("Monat", PropValue.relation [month_id.getD ""])] else [])

/-- The create payload `add_transaction` posts (src/main.py
lines 158-161), given the two resolved ids. -/
def buildPayload (cfg : Config) (tx : Transaction) (cat_id month_id : Option String) :
    CreatePayload :=
  { parentDatabaseId := cfg.DB_TRANSAKT_ID
    properties := buildProperties tx cat_id month_id }

/-- The category resolution performed by `add_transaction`
(src/main.py line 143): skipped (yielding `None` and no call) when
`DB_KATEG_ID` is falsy. -/
def resolvedCat (cfg : Config) (st : Store) (tx : Transaction) :
    Option String × List Call :=
  if strOptTruthy cfg.DB_KATEG_ID then
    find_page_id_by_name st cfg.DB_KATEG_ID tx.kategorie
  else (none, [])

/-- The month resolution performed by `add_transaction`
(src/main.py line 144): skipped (yielding `None` and no call) when
`DB_MONAT_ID` is falsy. -/
def resolvedMonth (cfg : Config) (st : Store) (tx : Transaction) :
    Option String × List Call :=
  if strOptTruthy cfg.DB_MONAT_ID then
    find_page_id_by_name st cfg.DB_MONAT_ID tx.monat
  else (none, [])

/-- The create payload that `add_transaction` posts for a given
configuration, store and request. -/
def txPayload (cfg : Config) (st : Store) (tx : Transaction) : CreatePayload :=
  buildPayload cfg tx (resolvedCat cfg st tx).1 (resolvedMonth cfg st tx).1

/-- The `/add` route handler `add_transaction` (src/main.py
lines 141-174): resolve the category and month names (skipping
resolution when the respective database id is falsy), build the create
payload, POST it, and return ok on success or raise HTTP 500 on any
request exception.  Returns the outcome together with the calls
issued. -/
def add_transaction (cfg : Config) (st : Store) (tx : Transaction) :
    Except Nat Unit × List Call :=
  let cres := resolvedCat cfg st tx
  let mres := resolvedMonth cfg st tx
  let payload := txPayload cfg st tx
  match st.rawCreate payload with
  | .ok _ => (.ok (), cres.2 ++ mres.2 ++ [.createCall payload])
  | .err => (.error 500, cres.2 ++ mres.2 ++ [.createCall payload])

/-- What the process does after the module-level configuration check. -/
inductive StartupBehavior where
  | serve (warned : Bool)
  | refuse
deriving DecidableEq, Repr

/-- The module-level startup check (src/main.py lines 22-23): when the
API key or the transactions database id is falsy, print a warning —
and in every case continue to serve. -/
def startup_check (cfg : Config) : StartupBehavior :=
  if strOptTruthy cfg.NOTION_API_KEY = false ∨
      strOptTruthy cfg.DB_TRANSAKT_ID = false then
    .serve true
  else .serve false

/-- The create calls among a list of calls. -/
def createCalls (calls : List Call) : List CreatePayload :=
  calls.filterMap (fun c => match c with
    | .createCall p => some p
    | _ => none)

/-- Well-formedness of the remote store: every page it returns carries a
non-empty opaque identifier (Notion page ids are UUIDs). -/
def Store.WF (st : Store) : Prop :=
  ∀ db p pages, st.rawQuery db p = .ok pages → ∀ pg ∈ pages, pg.id ≠ ""

/-- The result set whose amounts `get_lebensmittel_sum_for_month`
sums: empty in every guard or resolution-failure branch, and the
compound-query result set otherwise.  `sum_eq_results_sum` proves that
the returned total is exactly the sum of `betragNum` over this list. -/
def sumQueryResults (cfg : Config) (st : Store) (monat_name : String) :
    List Page :=
  if monat_name = "" ∨ strOptTruthy cfg.DB_MONAT_ID = false ∨
      strOptTruthy cfg.DB_TRANSAKT_ID = false ∨ strOptTruthy cfg.DB_KATEG_ID = false then
    []
  else
    let mres := find_page_id_by_name st cfg.DB_MONAT_ID monat_name
    let cres := find_page_id_by_name st cfg.DB_KATEG_ID "Lebensmittel"
    if strOptTruthy mres.1 = false ∨ strOptTruthy cres.1 = false then []
    else
      query_database st (cfg.DB_TRANSAKT_ID.getD "")
        (.monthAndCat (mres.1.getD "") (cres.1.getD ""))

lemma foldl_add_betragNum (l : List Page) (a : ℚ) :
    l.foldl (fun acc p => acc + betragNum p) a = a + (l.map betragNum).sum := by
  induction l generalizing a with
  | nil => simp
  | cons p t ih => simp [List.foldl_cons, ih, add_assoc]

lemma sum_eq_results_sum (cfg : Config) (st : Store) (monat_name : String) :
    (get_lebensmittel_sum_for_month cfg st monat_name).1 =
      ((sumQueryResults cfg st monat_name).map betragNum).sum := by
  unfold get_lebensmittel_sum_for_month sumQueryResults
  dsimp only
  split
  · simp
  · split
    · simp
    · simp [foldl_add_betragNum]

lemma find_page_id_ne_empty (st : Store) (hwf : st.WF)
    (db : Option String) (name : String) (cid : String)
    (h : (find_page_id_by_name st db name).1 = some cid) : cid ≠ "" := by
  unfold find_page_id_by_name query_database at h
  split at h
  · simp at h
  · dsimp only at h
    cases hq : st.rawQuery (db.getD "") (.titleEquals name) with
    | ok pages =>
      rw [hq] at h
      cases pages with
      | nil => simp at h
      | cons p t =>
        dsimp only at h
        injection h with h
        subst h
        exact hwf _ _ _ hq p (by simp)
    | err => rw [hq] at h; simp at h

lemma find_page_id_no_create (st : Store) (db : Option String) (name : String) :
    createCalls (find_page_id_by_name st db name).2 = [] := by
  unfold find_page_id_by_name
  split
  · rfl
  · dsimp only
    cases query_database st (db.getD "") (.titleEquals name) with
    | nil => rfl
    | cons p t => rfl

lemma createCalls_append (a b : List Call) :
    createCalls (a ++ b) = createCalls a ++ createCalls b := by
  simp [createCalls]

lemma resolvedCat_no_create (cfg : Config) (st : Store) (tx : Transaction) :
    createCalls (resolvedCat cfg st tx).2 = [] := by
  unfold resolvedCat
  split
  · exact find_page_id_no_create st cfg.DB_KATEG_ID tx.kategorie
  · rfl

lemma resolvedMonth_no_create (cfg : Config) (st : Store) (tx : Transaction) :
    createCalls (resolvedMonth cfg st tx).2 = [] := by
  unfold resolvedMonth
  split
  · exact find_page_id_no_create st cfg.DB_MONAT_ID tx.monat
  · rfl

lemma resolvedCat_ne_empty (cfg : Config) (st : Store) (tx : Transaction)
    (hwf : st.WF) (cid : String) (h : (resolvedCat cfg st tx).1 = some cid) :
    cid ≠ "" := by
  unfold resolvedCat at h
  split at h
  · exact find_page_id_ne_empty st hwf _ _ _ h
  · simp at h

lemma resolvedMonth_ne_empty (cfg : Config) (st : Store) (tx : Transaction)
    (hwf : st.WF) (mid : String) (h : (resolvedMonth cfg st tx).1 = some mid) :
    mid ≠ "" := by
  unfold resolvedMonth at h
  split at h
  · exact find_page_id_ne_empty st hwf _ _ _ h
  · simp at h

/-! ### Concrete fixtures used by witnesses and counterexamples -/

/-- A fully populated configuration. -/
def cfgAll : Config :=
  { NOTION_API_KEY := some "key", DB_TRANSAKT_ID := some "tdb",
    DB_KATEG_ID := some "kdb", DB_MONAT_ID := some "mdb" }

/-- A configuration with every environment value unset. -/
def cfgUnset : Config :=
  { NOTION_API_KEY := none, DB_TRANSAKT_ID := none,
    DB_KATEG_ID := none, DB_MONAT_ID := none }

/-- `cfgAll` with the months database id unset. -/
def cfgNoMonat : Config :=
  { NOTION_API_KEY := some "key", DB_TRANSAKT_ID := some "tdb",
    DB_KATEG_ID := some "kdb", DB_MONAT_ID := none }

def pageMonth : Page := { id := "mid1", nameTitle := ["March"], betrag := none }

def pageCat : Page := { id := "cid1", nameTitle := ["Lebensmittel"], betrag := none }

def pageTx1 : Page := { id := "t1", nameTitle := ["Migros"], betrag := some (.num 10) }

def pageTx2 : Page := { id := "t2", nameTitle := [], betrag := some (.num (11/2)) }

def pageTx3 : Page := { id := "t3", nameTitle := [], betrag := some (.str "x") }

def pageTx4 : Page := { id := "t4", nameTitle := [], betrag := none }

/-- A store holding one month ("March"), one category ("Lebensmittel")
and four transactions for that pair, two with numeric amounts (10 and
5.5), one with a string amount and one with no amount. -/
def stdQuery (db : String) (p : QueryPayload) : HttpResult (List Page) :=
  if db = "mdb" then
    match p with
    | .titleEquals n => if n = "March" then .ok [pageMonth] else .ok []
    | _ => .ok [pageMonth]
  else if db = "kdb" then
    match p with
    | .titleEquals n => if n = "Lebensmittel" then .ok [pageCat] else .ok []
    | _ => .ok [pageCat]
  else if db = "tdb" then
    match p with
    | .monthAndCat m c =>
        if m = "mid1" ∧ c = "cid1" then .ok [pageTx1, pageTx2, pageTx3, pageTx4]
        else .ok []
    | _ => .ok []
  else .err

def stdStore : Store := { rawQuery := stdQuery, rawCreate := fun _ => .ok () }

/-- A store on which every raw request fails. -/
def failStore : Store := { rawQuery := fun _ _ => .err, rawCreate := fun _ => .err }

/-- A store answering every query with the single category page. -/
def wfStore : Store :=
  { rawQuery := fun _ _ => .ok [pageCat], rawCreate := fun _ => .ok () }

/-- A store answering every query with the empty result set. -/
def emptyStore : Store :=
  { rawQuery := fun _ _ => .ok [], rawCreate := fun _ => .ok () }

/-- Like `stdStore`, but the transactions query returns a single record
with a negative amount. -/
def negQuery (db : String) (p : QueryPayload) : HttpResult (List Page) :=
  if db = "tdb" then .ok [{ id := "t9", nameTitle := [], betrag := some (.num (-1)) }]
  else stdQuery db p

def negStore : Store := { rawQuery := negQuery, rawCreate := fun _ => .ok () }

/-- A sample request to the `/add` route. -/
def txSample : Transaction :=
  { name := "Migros", betrag := 10, datum := "2025-03-01",
    kategorie := "Lebensmittel", monat := "March", notiz := none }

lemma wfStore_WF : wfStore.WF := by
  intro db p pages h pg hpg
  simp only [wfStore] at h
  injection h with h
  subst h
  simp only [List.mem_singleton] at hpg
  subst hpg
  simp [pageCat]

lemma emptyStore_WF : emptyStore.WF := by
  intro db p pages h pg hpg
  simp only [emptyStore] at h
  injection h with h
  subst h
  simp at hpg

/-! ### Claims -/

/-- C1: whenever the Lebensmittel sum reaches its compound
month-and-category query (non-empty month, all three database ids set,
both resolutions successful), the monthly total is exactly the sum of
the numeric amount field over all records the query returned, a record
whose amount field is missing or non-numeric (a string, or null)
contributing 0, and the value the /lebensmittel_sum route returns is
that total rounded to 2 decimal places. -/
theorem C1_sum_is_rounded_amount_sum (cfg : Config) (st : Store) (monat : String)
    (mId cId : String)
    (hmonat : monat ≠ "")
    (hmdb : strOptTruthy cfg.DB_MONAT_ID = true)
    (htdb : strOptTruthy cfg.DB_TRANSAKT_ID = true)
    (hkdb : strOptTruthy cfg.DB_KATEG_ID = true)
    (hm : (find_page_id_by_name st cfg.DB_MONAT_ID monat).1 = some mId)
    (hmne : mId ≠ "")
    (hc : (find_page_id_by_name st cfg.DB_KATEG_ID "Lebensmittel").1 = some cId)
    (hcne : cId ≠ "") :
    (get_lebensmittel_sum_for_month cfg st monat).1 =
      ((query_database st (cfg.DB_TRANSAKT_ID.getD "")
        (.monthAndCat mId cId)).map betragNum).sum ∧
    (lebensmittel_sum cfg st monat).1.2 =
      pyRound2 (((query_database st (cfg.DB_TRANSAKT_ID.getD "")
        (.monthAndCat mId cId)).map betragNum).sum) ∧
    (∀ p : Page, p.betrag = none → betragNum p = 0) ∧
    (∀ p : Page, ∀ s, p.betrag = some (.str s) → betragNum p = 0) ∧
    (∀ p : Page, p.betrag = some .null → betragNum p = 0) := by
  have hsum : (get_lebensmittel_sum_for_month cfg st monat).1 =
      ((query_database st (cfg.DB_TRANSAKT_ID.getD "")
        (.monthAndCat mId cId)).map betragNum).sum := by
    unfold get_lebensmittel_sum_for_month
    dsimp only
    rw [if_neg (by simp [hmonat, hmdb, htdb, hkdb])]
    rw [hm, hc]
    rw [if_neg (by simp [strOptTruthy, hmne, hcne])]
    simp [foldl_add_betragNum]
  refine ⟨hsum, ?_, ?_, ?_, ?_⟩
  · unfold lebensmittel_sum
    dsimp only
    rw [hsum]
  · intro p h
    simp [betragNum, h]
  · intro p s h
    simp [betragNum, h]
  · intro p h
    simp [betragNum, h]

/-- Witness for C1 on the concrete fixture store: amounts 10 and 5.5
are summed, the string and missing amounts contribute 0, and the route
returns the rounded total. -/
theorem C1_witness :
    (get_lebensmittel_sum_for_month cfgAll stdStore "March").1 = 31/2 ∧
    (lebensmittel_sum cfgAll stdStore "March").1.2 = 31/2 := by
  have h := C1_sum_is_rounded_amount_sum cfgAll stdStore "March" "mid1" "cid1"
    (by decide) (by decide) (by decide) (by decide)
    (by decide) (by decide) (by decide) (by decide)
  have hq2 : query_database stdStore (cfgAll.DB_TRANSAKT_ID.getD "")
      (.monthAndCat "mid1" "cid1") = [pageTx1, pageTx2, pageTx3, pageTx4] := rfl
  have hq : ((query_database stdStore (cfgAll.DB_TRANSAKT_ID.getD "")
      (.monthAndCat "mid1" "cid1")).map betragNum).sum = 31/2 := by
    rw [hq2]
    norm_num [betragNum, pageTx1, pageTx2, pageTx3, pageTx4]
  refine ⟨h.1.trans hq, h.2.1.trans ?_⟩
  rw [hq]
  norm_num [pyRound2, roundHalfEven]

/-- C2: for every configuration, store and request, `add_transaction`
issues exactly one create call, whose payload carries the request's
name, amount and date verbatim, and it reports success exactly when
that create call succeeded and a 500 write error exactly when it
failed. -/
theorem C2_record_one_verbatim_create (cfg : Config) (st : Store) (tx : Transaction) :
    createCalls (add_transaction cfg st tx).2 = [txPayload cfg st tx] ∧
    ("Name", PropValue.title tx.name) ∈ (txPayload cfg st tx).properties ∧
    ("Betrag", PropValue.number tx.betrag) ∈ (txPayload cfg st tx).properties ∧
    ("Datum", PropValue.dateStart tx.datum) ∈ (txPayload cfg st tx).properties ∧
    ((add_transaction cfg st tx).1 = .ok () ↔
      st.rawCreate (txPayload cfg st tx) = .ok ()) ∧
    ((add_transaction cfg st tx).1 = .error 500 ↔
      st.rawCreate (txPayload cfg st tx) = .err) := by
  have hcalls : createCalls (add_transaction cfg st tx).2 = [txPayload cfg st tx] := by
    unfold add_transaction
    dsimp only
    cases st.rawCreate (txPayload cfg st tx) with
    | ok v =>
        rw [createCalls_append, createCalls_append,
          resolvedCat_no_create, resolvedMonth_no_create]
        simp [createCalls]
    | err =>
        rw [createCalls_append, createCalls_append,
          resolvedCat_no_create, resolvedMonth_no_create]
        simp [createCalls]
  refine ⟨hcalls, ?_, ?_, ?_, ?_, ?_⟩
  · simp [txPayload, buildPayload, buildProperties]
  · simp [txPayload, buildPayload, buildProperties]
  · simp [txPayload, buildPayload, buildProperties]
  · unfold add_transaction
    dsimp only
    cases st.rawCreate (txPayload cfg st tx) with
    | ok v => simp
    | err => simp
  · unfold add_transaction
    dsimp only
    cases st.rawCreate (txPayload cfg st tx) with
    | ok v => simp
    | err => simp

/-- C3: for a well-formed store, when the category name resolves the
created record carries both the Category relation and the plain-text
category field; when it does not resolve, the record is still created
(exactly one create call) with only the plain-text field; the same
holds for the Month relation; and the call fails (HTTP 500) exactly
when the final create call fails. -/
theorem C3_relations_best_effort (cfg : Config) (st : Store) (tx : Transaction)
    (hwf : st.WF) :
    (∀ cid, (resolvedCat cfg st tx).1 = some cid →
      ("Kategorien", PropValue.relation [cid]) ∈ (txPayload cfg st tx).properties) ∧
    ((resolvedCat cfg st tx).1 = none →
      ∀ v, ("Kategorien", v) ∉ (txPayload cfg st tx).properties) ∧
    (∀ mid, (resolvedMonth cfg st tx).1 = some mid →
      ("Monat", PropValue.relation [mid]) ∈ (txPayload cfg st tx).properties) ∧
    ((resolvedMonth cfg st tx).1 = none →
      ∀ v, ("Monat", v) ∉ (txPayload cfg st tx).properties) ∧
    ("Kategorie_Text", PropValue.richText [tx.kategorie]) ∈
      (txPayload cfg st tx).properties ∧
    createCalls (add_transaction cfg st tx).2 = [txPayload cfg st tx] ∧
    ((add_transaction cfg st tx).1 = .error 500 ↔
      st.rawCreate (txPayload cfg st tx) = .err) := by
  refine ⟨?_, ?_, ?_, ?_, ?_, ?_, ?_⟩
  · intro cid hcid
    have hne : cid ≠ "" := resolvedCat_ne_empty cfg st tx hwf cid hcid
    simp [txPayload, buildPayload, buildProperties, hcid, strOptTruthy, hne]
  · intro hnone v
    simp [txPayload, buildPayload, buildProperties, hnone, strOptTruthy]
  · intro mid hmid
    have hne : mid ≠ "" := resolvedMonth_ne_empty cfg st tx hwf mid hmid
    simp [txPayload, buildPayload, buildProperties, hmid, strOptTruthy, hne]
  · intro hnone v
    simp [txPayload, buildPayload, buildProperties, hnone, strOptTruthy]
  · simp [txPayload, buildPayload, buildProperties]
  · unfold add_transaction
    dsimp only
    cases st.rawCreate (txPayload cfg st tx) with
    | ok v =>
        rw [createCalls_append, createCalls_append,
          resolvedCat_no_create, resolvedMonth_no_create]
        simp [createCalls]
    | err =>
        rw [createCalls_append, createCalls_append,
          resolvedCat_no_create, resolvedMonth_no_create]
        simp [createCalls]
  · unfold add_transaction
    dsimp only
    cases st.rawCreate (txPayload cfg st tx) with
    | ok v => simp
    | err => simp

/-- Witness for C3: on the fixture stores, a resolving category name
yields both the relation and the plain-text field, and a
non-resolving one yields the record without the relation but with the
plain-text field. -/
theorem C3_witness :
    (("Kategorien", PropValue.relation ["cid1"]) ∈
        (txPayload cfgAll wfStore txSample).properties ∧
      ("Kategorie_Text", PropValue.richText ["Lebensmittel"]) ∈
        (txPayload cfgAll wfStore txSample).properties) ∧
    ((∀ v, ("Kategorien", v) ∉ (txPayload cfgAll emptyStore txSample).properties) ∧
      ("Kategorie_Text", PropValue.richText ["Lebensmittel"]) ∈
        (txPayload cfgAll emptyStore txSample).properties ∧
      createCalls (add_transaction cfgAll emptyStore txSample).2 =
        [txPayload cfgAll emptyStore txSample]) := by
  have h1 := C3_relations_best_effort cfgAll wfStore txSample wfStore_WF
  have h2 := C3_relations_best_effort cfgAll emptyStore txSample emptyStore_WF
  exact ⟨⟨h1.1 "cid1" (by decide), h1.2.2.2.2.1⟩,
    ⟨h2.2.1 (by decide), h2.2.2.2.2.1, h2.2.2.2.2.2.1⟩⟩

/-- C4: the Lebensmittel sum returns 0 without issuing any network call
when the month name is empty or any of the three collection ids is
unset, and returns 0 whenever the resolution of the month name or of
the tracked category name fails. -/
theorem C4_sum_zero_on_guard_or_miss (cfg : Config) (st : Store) (monat : String) :
    ((monat = "" ∨ strOptTruthy cfg.DB_MONAT_ID = false ∨
        strOptTruthy cfg.DB_TRANSAKT_ID = false ∨
        strOptTruthy cfg.DB_KATEG_ID = false) →
      get_lebensmittel_sum_for_month cfg st monat = (0, [])) ∧
    (((find_page_id_by_name st cfg.DB_MONAT_ID monat).1 = none ∨
        (find_page_id_by_name st cfg.DB_KATEG_ID "Lebensmittel").1 = none) →
      (get_lebensmittel_sum_for_month cfg st monat).1 = 0) := by
  constructor
  · intro h
    unfold get_lebensmittel_sum_for_month
    rw [if_pos h]
  · intro h
    unfold get_lebensmittel_sum_for_month
    dsimp only
    split
    · rfl
    · have hcond : strOptTruthy (find_page_id_by_name st cfg.DB_MONAT_ID monat).1 = false ∨
          strOptTruthy (find_page_id_by_name st cfg.DB_KATEG_ID "Lebensmittel").1 = false := by
        rcases h with h | h
        · exact Or.inl (by rw [h]; rfl)
        · exact Or.inr (by rw [h]; rfl)
      rw [if_pos hcond]

/-- Witness for C4: empty month name and an unset months database id
both yield `(0, [])`, and a month name absent from the months
collection yields total 0. -/
theorem C4_witness :
    get_lebensmittel_sum_for_month cfgAll stdStore "" = (0, []) ∧
    get_lebensmittel_sum_for_month cfgNoMonat stdStore "March" = (0, []) ∧
    (get_lebensmittel_sum_for_month cfgAll stdStore "Nope").1 = 0 := by
  refine ⟨(C4_sum_zero_on_guard_or_miss cfgAll stdStore "").1 (Or.inl rfl),
    (C4_sum_zero_on_guard_or_miss cfgNoMonat stdStore "March").1
      (Or.inr (Or.inl rfl)),
    (C4_sum_zero_on_guard_or_miss cfgAll stdStore "Nope").2 (Or.inl (by decide))⟩

/-- C5: the resolver returns not-found exactly when the name is empty,
the collection id is falsy, or the query result set is empty; on an
empty name it issues no network call; otherwise it returns the id of
the first record the store returned. -/
theorem C5_resolver_not_found_iff (st : Store) (db : Option String) (name : String) :
    ((find_page_id_by_name st db name).1 = none ↔
      (name = "" ∨ strOptTruthy db = false ∨
        query_database st (db.getD "") (.titleEquals name) = [])) ∧
    (name = "" → find_page_id_by_name st db name = (none, [])) ∧
    (∀ p t, name ≠ "" → strOptTruthy db = true →
      query_database st (db.getD "") (.titleEquals name) = p :: t →
      (find_page_id_by_name st db name).1 = some p.id) := by
  refine ⟨?_, ?_, ?_⟩
  · unfold find_page_id_by_name
    dsimp only
    split
    · rename_i h
      simp only [true_iff]
      tauto
    · rename_i h
      push_neg at h
      cases hq : query_database st (db.getD "") (.titleEquals name) with
      | nil => simp [h.1, h.2, hq]
      | cons p t => simp [h.1, h.2, hq]
  · intro h
    unfold find_page_id_by_name
    rw [if_pos (Or.inl h)]
  · intro p t hname hdb hq
    unfold find_page_id_by_name
    rw [if_neg (by simp [hname, hdb])]
    dsimp only
    rw [hq]

/-- Witness for C5: the empty name resolves to not-found with no calls,
and "March" resolves to the id of the first (only) month page. -/
theorem C5_witness :
    find_page_id_by_name stdStore (some "mdb") "" = (none, []) ∧
    (find_page_id_by_name stdStore (some "mdb") "March").1 = some "mid1" := by
  refine ⟨(C5_resolver_not_found_iff stdStore (some "mdb") "").2.1 rfl,
    (C5_resolver_not_found_iff stdStore (some "mdb") "March").2.2 pageMonth []
      (by decide) (by decide) (by decide)⟩

/-- C6: on a raw failure every query degrades to the empty result set,
while a failing create in `add_transaction` surfaces as an explicit
HTTP 500 write error (and success is reported only when the create
succeeded). -/
theorem C6_read_silent_write_loud (st : Store) (db : String) (p : QueryPayload)
    (cfg : Config) (tx : Transaction) :
    (st.rawQuery db p = .err → query_database st db p = []) ∧
    (st.rawCreate (txPayload cfg st tx) = .err →
      (add_transaction cfg st tx).1 = .error 500) ∧
    (st.rawCreate (txPayload cfg st tx) = .ok () →
      (add_transaction cfg st tx).1 = .ok ()) := by
  refine ⟨?_, ?_, ?_⟩
  · intro h
    unfold query_database
    rw [h]
  · intro h
    unfold add_transaction
    dsimp only
    rw [h]
  · intro h
    unfold add_transaction
    dsimp only
    rw [h]

/-- Witness for C6 on the all-failing store: the query returns the
empty result set and the add route raises 500. -/
theorem C6_witness :
    query_database failStore "tdb" .empty = [] ∧
    (add_transaction cfgAll failStore txSample).1 = .error 500 := by
  refine ⟨(C6_read_silent_write_loud failStore "tdb" .empty cfgAll txSample).1 rfl,
    (C6_read_silent_write_loud failStore "tdb" .empty cfgAll txSample).2.1 rfl⟩

/-- C7 counterexample: with the credential and all collection ids
unset, the process does not refuse to start — it serves after printing
a warning (src/main.py lines 22-23 only print). -/
theorem C7_counterexample :
    startup_check cfgUnset = .serve true ∧ startup_check cfgUnset ≠ .refuse := by
  decide

/-- C7 amended: if the API credential or the primary (transactions)
collection id is absent at startup, the process prints a warning and
still serves; it never refuses to start. -/
theorem C7_warn_and_serve (cfg : Config) :
    ((strOptTruthy cfg.NOTION_API_KEY = false ∨
        strOptTruthy cfg.DB_TRANSAKT_ID = false) →
      startup_check cfg = .serve true) ∧
    startup_check cfg ≠ .refuse := by
  constructor
  · intro h
    unfold startup_check
    rw [if_pos h]
  · unfold startup_check
    split <;> simp

/-- Witness for the amended C7 at the all-unset configuration. -/
theorem C7_witness : startup_check cfgUnset = .serve true :=
  (C7_warn_and_serve cfgUnset).1 (Or.inl rfl)

/-- C8 counterexample: on a store whose transactions collection holds a
record with amount -1 for the queried month and category, the
Lebensmittel sum is negative, so it is not non-negative for every
store state. -/
theorem C8_counterexample :
    (get_lebensmittel_sum_for_month cfgAll negStore "March").1 < 0 := by
  have heq : (get_lebensmittel_sum_for_month cfgAll negStore "March").1 =
      0 + (-1 : ℚ) := rfl
  rw [heq]
  norm_num

/-- C8 amended: the Lebensmittel sum is non-negative whenever every
record in the result set it sums has a non-negative numeric amount
(in particular in every guard and resolution-failure branch, where the
result set is empty and the total is 0). -/
theorem C8_sum_nonneg_of_amounts_nonneg (cfg : Config) (st : Store) (monat : String)
    (hpos : ∀ pg ∈ sumQueryResults cfg st monat, 0 ≤ betragNum pg) :
    0 ≤ (get_lebensmittel_sum_for_month cfg st monat).1 := by
  rw [sum_eq_results_sum]
  refine List.sum_nonneg ?_
  intro q hq
  rcases List.mem_map.mp hq with ⟨pg, hpg, rfl⟩
  exact hpos pg hpg

/-- Witness for the amended C8 on the fixture store, whose four
returned records all contribute non-negative amounts. -/
theorem C8_witness : 0 ≤ (get_lebensmittel_sum_for_month cfgAll stdStore "March").1 := by
  refine C8_sum_nonneg_of_amounts_nonneg cfgAll stdStore "March" ?_
  have hres : sumQueryResults cfgAll stdStore "March" =
      [pageTx1, pageTx2, pageTx3, pageTx4] := rfl
  rw [hres]
  intro pg hpg
  simp only [List.mem_cons, List.not_mem_nil, or_false] at hpg
  rcases hpg with rfl | rfl | rfl | rfl <;> norm_num [betragNum, pageTx1, pageTx2, pageTx3, pageTx4]

/-- C9: the option lister returns the empty sequence without a network
call when the collection id is falsy, and the empty sequence when the
underlying query fails. -/
theorem C9_listNames_empty (st : Store) (db : Option String) :
    (strOptTruthy db = false → get_names_from_db st db = ([], [])) ∧
    (st.rawQuery (db.getD "") .empty = .err → (get_names_from_db st db).1 = []) := by
  constructor
  · intro h
    unfold get_names_from_db
    rw [if_neg (by simp [h])]
  · intro h
    unfold get_names_from_db
    dsimp only
    split
    · unfold query_database
      rw [h]
      rfl
    · rfl

/-- Witness for C9: an unset id yields `([], [])`, and on the
all-failing store the names list is empty. -/
theorem C9_witness :
    get_names_from_db stdStore none = ([], []) ∧
    (get_names_from_db failStore (some "kdb")).1 = [] := by
  exact ⟨(C9_listNames_empty stdStore none).1 rfl,
    (C9_listNames_empty failStore (some "kdb")).2 rfl⟩

/-- C10: the create payload always contains the "Notiz" property — an
empty rich-text list when the optional note is absent or empty — in
contrast to the relation properties, which are omitted entirely when
the respective resolution is falsy. -/
theorem C10_notiz_always_present (cfg : Config) (st : Store) (tx : Transaction) :
    (∃ items, ("Notiz", PropValue.richText items) ∈ (txPayload cfg st tx).properties) ∧
    (strOptTruthy tx.notiz = false →
      ("Notiz", PropValue.richText []) ∈ (txPayload cfg st tx).properties) ∧
    (strOptTruthy (resolvedCat cfg st tx).1 = false →
      ∀ v, ("Kategorien", v) ∉ (txPayload cfg st tx).properties) ∧
    (strOptTruthy (resolvedMonth cfg st tx).1 = false →
      ∀ v, ("Monat", v) ∉ (txPayload cfg st tx).properties) := by
  refine ⟨?_, ?_, ?_, ?_⟩
  · refine ⟨if strOptTruthy tx.notiz then [tx.notiz.getD ""] else [], ?_⟩
    simp [txPayload, buildPayload, buildProperties]
  · intro h
    simp [txPayload, buildPayload, buildProperties, h]
  · intro h v
    simp [txPayload, buildPayload, buildProperties, h]
  · intro h v
    simp [txPayload, buildPayload, buildProperties, h]

/-- Witness for C10: with no note the payload carries "Notiz" with an
empty rich-text list, and with an unset categories database id the
"Kategorien" relation is absent. -/
theorem C10_witness :
    ("Notiz", PropValue.richText []) ∈ (txPayload cfgAll wfStore txSample).properties ∧
    ("Kategorien", PropValue.relation ["cid1"]) ∉
      (txPayload cfgUnset emptyStore txSample).properties := by
  exact ⟨(C10_notiz_always_present cfgAll wfStore txSample).2.1 rfl,
    (C10_notiz_always_present cfgUnset emptyStore txSample).2.2.1 rfl
      (PropValue.relation ["cid1"])⟩

end Einkauf
